import Mathlib

/-!
Shallow embedding of the Provider Dispatch and Resilience Engine of the
PorTaTek OpenAI gateway (source file src/unnamed/part_002) together with
theorems settling the specification claims about it.

Conventions used throughout:
* JavaScript objects used as string-keyed maps become association lists
  (`List (String × String)`); lookup is first-match, mirroring the unique
  keys of the object literals in the source.
* JavaScript truthiness of a looked-up string value (used by the `||`
  defaulting idiom and by `if (fallbackModel)`) is modelled by `jsTruthy`,
  which treats the empty string as absent.
* The upstream network is abstracted as an oracle `Nat → Outcome` mapping
  the index of each upstream call issued during one logical request to the
  observed outcome (a successful payload or a thrown error, both opaque
  strings, since the executor never inspects the error it catches).
* Wall-clock time is a natural number of milliseconds; `setTimeout`-based
  cache expiry becomes an `expiresAt` stamp checked on lookup, which is
  observationally the same as timer-driven deletion.
* Recursive retry code is embedded with an explicit fuel parameter; all
  safety statements are proved for every fuel value, and exactness
  statements assume fuel at least the bound actually reached.
-/

namespace PorTaTek

/-- Lookup in a JavaScript-object-as-map: first binding whose key matches. -/
def jsGet (m : List (String × String)) (k : String) : Option String :=
  (m.find? (fun p => p.1 == k)).map (·.2)

/-- JavaScript truthiness filter for a looked-up string value: the empty
string is falsy, so `if (v)` and `a || b` treat it as absent. -/
def jsTruthy : Option String → Option String
  | some v => if v == "" then none else some v
  | none => none

/-- The `a || b` defaulting idiom on looked-up string values. -/
def jsOr (a b : Option String) : Option String :=
  match jsTruthy a with
  | some v => some v
  | none => b

/-- Translated from src/unnamed/part_002 lines 45-103: the MODEL_MAPPING
object literal mapping client model names to target model identifiers. -/
def MODEL_MAPPING : List (String × String) := [
  ("gpt-3.5-turbo", "deepseek/deepseek-r1-0528:free"),
  ("gpt-3.5-turbo-instruct", "deepseek/deepseek-r1-0528:free"),
  ("gpt-3.5-turbo-16k", "deepseek/deepseek-r1-0528:free"),
  ("gpt-4", "deepseek/deepseek-r1-0528:free"),
  ("gpt-4-turbo", "deepseek/deepseek-r1-0528:free"),
  ("gpt-4o", "qwen/qwen3-235b-a22b:free"),
  ("gpt-4o-mini", "qwen/qwen3-next-80b-a3b-instruct:free"),
  ("gpt-4o-mini-2024-07-18", "qwen/qwen3-next-80b-a3b-instruct:free"),
  ("gpt-5", "qwen/qwen3-235b-a22b:free"),
  ("gpt-5-turbo", "qwen/qwen3-next-80b-a3b-instruct:free"),
  ("gpt-5-nano", "opencode/gpt-5-nano:free"),
  ("gpt-5-preview", "qwen/qwen3-235b-a22b:free"),
  ("text-embedding-ada-002", "mistralai/mistral-embed:free"),
  ("text-davinci-003", "mistralai/mistral-embed:free"),
  ("gpt-4-vision-preview", "qwen/qwen3-vl-235b-a22b-thinking:free"),
  ("gpt-4-vision", "qwen/qwen3-vl-30b-a3b-thinking:free"),
  ("gpt-4o-vision", "qwen/qwen3-vl-235b-a22b-thinking:free"),
  ("gpt-4-code", "qwen/qwen3-coder:free"),
  ("code-davinci-002", "qwen/qwen3-coder:free"),
  ("mistral-small", "mistralai/mistral-small-3.1-24b-instruct:free"),
  ("mistral-tiny", "mistralai/mistral-small-2501:free"),
  ("llama-3.2", "meta-llama/llama-3.2-3b-instruct:free"),
  ("llama-3.3", "meta-llama/llama-3.3-70b-instruct:free"),
  ("gemma-7b", "google/gemma-2-9b-it:free"),
  ("gemma-2b", "google/gemma-2-2b-it:free"),
  ("opencode-big-pickle", "opencode/big-pickle:free"),
  ("opencode-glm-5", "opencode/glm-5-free:free"),
  ("opencode-gpt-5-nano", "opencode/gpt-5-nano:free"),
  ("opencode-kimi-k2.5", "opencode/kimi-k2.5-free:free"),
  ("opencode-minimax-m2.5", "opencode/minimax-m2.5-free:free"),
  ("gemini-3-flash", "gemini-3-flash-preview"),
  ("gemini-3-pro", "gemini-3-pro-preview"),
  ("gemini-2.0-flash", "gemini-2.0-flash-exp"),
  ("gemini-1.5-flash", "gemini-1.5-flash"),
  ("gemini-1.5-pro", "gemini-1.5-pro"),
  ("default", "deepseek/deepseek-r1-0528:free")]

/-- Translated from src/unnamed/part_002 lines 106-113: target models served
by the Gemini provider; every other target model uses OpenRouter. -/
def MODEL_PROVIDER : List (String × String) := [
  ("gemini-3-flash-preview", "gemini"),
  ("gemini-3-pro-preview", "gemini"),
  ("gemini-2.0-flash-exp", "gemini"),
  ("gemini-1.5-flash", "gemini"),
  ("gemini-1.5-pro", "gemini")]

/-- Translated from src/unnamed/part_002 lines 116-146: the FALLBACK_MAPPING
object literal mapping a target model to the next model to try. -/
def FALLBACK_MAPPING : List (String × String) := [
  ("deepseek/deepseek-r1-0528:free", "qwen/qwen3-235b-a22b:free"),
  ("qwen/qwen3-235b-a22b:free", "qwen/qwen3-next-80b-a3b-instruct:free"),
  ("qwen/qwen3-next-80b-a3b-instruct:free", "mistralai/mistral-small-3.1-24b-instruct:free"),
  ("qwen/qwen3-coder:free", "mistralai/mistral-small-3.1-24b-instruct:free"),
  ("qwen/qwen3-vl-235b-a22b-thinking:free", "qwen/qwen3-vl-30b-a3b-thinking:free"),
  ("qwen/qwen3-vl-30b-a3b-thinking:free", "mistralai/mistral-small-3.1-24b-instruct:free"),
  ("mistralai/mistral-small-3.1-24b-instruct:free", "mistralai/mistral-small-2501:free"),
  ("mistralai/mistral-small-2501:free", "meta-llama/llama-3.3-70b-instruct:free"),
  ("meta-llama/llama-3.3-70b-instruct:free", "meta-llama/llama-3.2-3b-instruct:free"),
  ("meta-llama/llama-3.2-3b-instruct:free", "google/gemma-2-9b-it:free"),
  ("google/gemma-2-9b-it:free", "google/gemma-2-2b-it:free"),
  ("opencode/big-pickle:free", "opencode/glm-5-free:free"),
  ("opencode/glm-5-free:free", "opencode/gpt-5-nano:free"),
  ("opencode/gpt-5-nano:free", "opencode/kimi-k2.5-free:free"),
  ("opencode/kimi-k2.5-free:free", "opencode/minimax-m2.5-free:free"),
  ("opencode/minimax-m2.5-free:free", "deepseek/deepseek-r1-0528:free")]

/-- Translated from src/unnamed/part_002 line 350: the chat handler resolves
the requested model via MODEL_MAPPING with the `default` entry as fallback,
using the JavaScript `||` idiom. -/
def resolveChatModel (mapping : List (String × String)) (name : String) : Option String :=
  jsOr (jsGet mapping name) (jsGet mapping "default")

/-- Translated from src/unnamed/part_002 line 502: the embeddings handler
resolves the requested model via MODEL_MAPPING with the
`text-embedding-ada-002` entry, not the `default` entry, as fallback. -/
def resolveEmbModel (mapping : List (String × String)) (name : String) : Option String :=
  jsOr (jsGet mapping name) (jsGet mapping "text-embedding-ada-002")

/-- Outcome of one upstream call: the resolved payload of `axios.post`, or
the error it throws. Both are opaque to the executor, which never inspects
the error it catches, so they are plain strings. -/
inductive Outcome where
  | ok (resp : String)
  | fail (err : String)
deriving DecidableEq

/-- Whether an upstream outcome is a thrown error. -/
def Outcome.isFail : Outcome → Bool
  | .ok _ => false
  | .fail _ => true

instance : DecidableEq (Except String String) := fun a b =>
  match a, b with
  | .ok x, .ok y => decidable_of_iff (x = y) (by simp)
  | .ok _, .error _ => .isFalse (by simp)
  | .error _, .ok _ => .isFalse (by simp)
  | .error x, .error y => decidable_of_iff (x = y) (by simp)

/-- Result of running the retry-with-fallback executor: the chronological
trace of upstream calls issued, each recorded as the target model together
with the value of the `retries` counter at that call, and the final result. -/
structure ExecResult where
  trace : List (String × Nat)
  result : Except String String
deriving DecidableEq

/-- Translated from src/unnamed/part_002 lines 293-336, function
`fetchOpenRouterWithRetry(url, data, headers, retries = 0, modelFallbacks = [])`.
The upstream call `axios.post` is abstracted by the oracle applied to the
index of the call; `data.model` is the `currentModel` argument. On failure,
if `retries >= MAX_RETRIES - 1` the code looks up `FALLBACK_MAPPING[currentModel]`
and, when the fallback exists (is truthy) and `!modelFallbacks.includes(fallbackModel)`,
recurses on the fallback model with the counter reset to 0 and
`[...modelFallbacks, currentModel]`; otherwise it rethrows. Below the retry
threshold it waits (the delay is unobservable here) and recurses with
`retries + 1`. The extra fuel argument bounds the recursion depth; with fuel
0 the function gives up without issuing a call. -/
def fetchOpenRouterWithRetry (maxRetries : Nat) (fallbackMapping : List (String × String))
    (oracle : Nat → Outcome) :
    Nat → Nat → String → Nat → List String → ExecResult
  | 0, _, _, _, _ => ⟨[], .error "fuel exhausted"⟩
  | fuel + 1, idx, currentModel, retries, modelFallbacks =>
    match oracle idx with
    | .ok resp => ⟨[(currentModel, retries)], .ok resp⟩
    | .fail err =>
      if maxRetries - 1 ≤ retries then
        match jsTruthy (jsGet fallbackMapping currentModel) with
        | some fallbackModel =>
          if modelFallbacks.contains fallbackModel then
            ⟨[(currentModel, retries)], .error err⟩
          else
            let r := fetchOpenRouterWithRetry maxRetries fallbackMapping oracle
              fuel (idx + 1) fallbackModel 0 (modelFallbacks ++ [currentModel])
            ⟨(currentModel, retries) :: r.trace, r.result⟩
        | none => ⟨[(currentModel, retries)], .error err⟩
      else
        let r := fetchOpenRouterWithRetry maxRetries fallbackMapping oracle
          fuel (idx + 1) currentModel (retries + 1) modelFallbacks
        ⟨(currentModel, retries) :: r.trace, r.result⟩

/-- One chat message of the inbound OpenAI-shaped request body. -/
structure Message where
  role : String
  content : String
deriving DecidableEq

/-- The normalized inbound chat request after destructuring
`const \x7b model: requestedModel, messages, stream, ...otherOptions \x7d = req.body`
in src/unnamed/part_002 line 347. The `options` field is the rest object
`otherOptions`, kept as an ordered list of field name and raw JSON value in
body order, since JSON.stringify preserves object insertion order. -/
structure ChatRequest where
  model : String
  messages : List Message
  stream : Bool
  options : List (String × String)
deriving DecidableEq

/-- The client-facing response object built by the chat handler
(src/unnamed/part_002 lines 391-398 and 472-479). The upstream `choices`
and `usage` payloads are opaque to the handler and kept as strings. -/
structure ChatResponse where
  id : String
  object : String
  created : Nat
  model : String
  choices : String
  usage : String
deriving DecidableEq

/-- One entry of the response cache. The source stores the value in a `Map`
and schedules `responseCache.delete(cacheKey)` after CACHE_TTL milliseconds
(lines 401-402 and 482-483); this is embedded as an `expiresAt` stamp, with
lookups only seeing entries whose timer has not yet fired. -/
structure CacheEntry where
  key : String
  value : ChatResponse
  expiresAt : Nat
deriving DecidableEq

/-- The gateway configuration visible to the dispatch engine: whether each
provider key is set, the (admin-mutable) model tables, and CACHE_TTL. -/
structure GatewayConfig where
  openrouterKey : Bool
  geminiKey : Bool
  modelMapping : List (String × String)
  modelProvider : List (String × String)
  cacheTTL : Nat
deriving DecidableEq

/-- JSON string escaping, character list worker. -/
def jsonEscapeChars : List Char → List Char
  | [] => []
  | c :: cs =>
    (if c = '"' then ['\\', '"'] else if c = '\\' then ['\\', '\\'] else [c])
      ++ jsonEscapeChars cs

/-- JSON string escaping as performed by JSON.stringify on the inputs that
occur here (quote and backslash). -/
def jsonEscape (s : String) : String := String.mk (jsonEscapeChars s.data)

/-- A JSON string literal. -/
def jString (s : String) : String := "\"" ++ jsonEscape s ++ "\""

/-- JSON serialization of one message object, field order as in the body. -/
def serializeMessage (m : Message) : String :=
  "\x7b\"role\":" ++ jString m.role ++ ",\"content\":" ++ jString m.content ++ "\x7d"

/-- JSON serialization of the messages array. -/
def serializeMessages (ms : List Message) : String :=
  "[" ++ String.intercalate "," (ms.map serializeMessage) ++ "]"

/-- JSON serialization of the `otherOptions` rest object, preserving the
insertion order of its fields exactly as JSON.stringify does; values are
already raw JSON text. -/
def serializeOptions (o : List (String × String)) : String :=
  "\x7b" ++ String.intercalate "," (o.map (fun p => jString p.1 ++ ":" ++ p.2)) ++ "\x7d"

/-- Translated from src/unnamed/part_002 lines 152-158, function
`generateCacheKey(model, messages, options)`: the key is
`JSON.stringify(\x7b model, messages, options \x7d)`, an order-preserving
serialization with no normalization of the options field order. -/
def generateCacheKey (model : String) (messages : List Message)
    (options : List (String × String)) : String :=
  "\x7b\"model\":" ++ jString model ++ ",\"messages\":" ++ serializeMessages messages
    ++ ",\"options\":" ++ serializeOptions options ++ "\x7d"

/-- Cache lookup at a given time: the entry for the key whose deletion timer
has not yet fired. Mirrors `responseCache.has / responseCache.get` under the
timer-driven expiry of the source. -/
def cacheLookup (cache : List CacheEntry) (now : Nat) (key : String) : Option ChatResponse :=
  (cache.find? (fun e => e.key == key && decide (now < e.expiresAt))).map (·.value)

/-- Cache insertion: `responseCache.set(cacheKey, response)` overwrites any
entry under the same key, and the paired `setTimeout` fixes its expiry. -/
def cacheInsert (cache : List CacheEntry) (key : String) (value : ChatResponse)
    (expiresAt : Nat) : List CacheEntry :=
  ⟨key, value, expiresAt⟩ :: cache.filter (fun e => e.key != key)

/-- The decision taken by the chat-completions handler for one request. -/
inductive ChatOutcome where
  | cacheHit (resp : ChatResponse)
  | configError (status : Nat) (etype : String) (code : String)
  | notImplemented (status : Nat) (etype : String) (code : String)
  | streamRelay
  | completed (resp : ChatResponse)
deriving DecidableEq

/-- Outcome of one pass through the chat-completions handler: the decision,
the cache afterwards, and whether a provider client call was issued. -/
structure ChatStepResult where
  out : ChatOutcome
  cache : List CacheEntry
  invoked : Bool
deriving DecidableEq

/-- The resolved target model of a chat request (src/unnamed/part_002 line
350); an unresolvable name coerces to the string "undefined" downstream. -/
def chatResolvedModel (cfg : GatewayConfig) (req : ChatRequest) : String :=
  (resolveChatModel cfg.modelMapping req.model).getD "undefined"

/-- The provider serving the resolved model (line 353):
`MODEL_PROVIDER[model] || 'openrouter'`. -/
def chatProvider (cfg : GatewayConfig) (req : ChatRequest) : String :=
  (jsTruthy (jsGet cfg.modelProvider (chatResolvedModel cfg req))).getD "openrouter"

/-- The cache key of a chat request (line 358): note it is keyed by the
resolved target model, not the requested client name. -/
def chatCacheKey (cfg : GatewayConfig) (req : ChatRequest) : String :=
  generateCacheKey (chatResolvedModel cfg req) req.messages req.options

/-- The client-facing success response built by the chat handler on an
upstream success (src/unnamed/part_002 lines 391-398 and 472-479): it echoes
the originally requested client model name and stamps the current epoch
second. -/
def completedResponse (req : ChatRequest) (now : Nat)
    (upId upChoices upUsage : String) : ChatResponse :=
  ⟨upId, "chat.completion", now / 1000, req.model, upChoices, upUsage⟩

/-- Translated from src/unnamed/part_002 lines 345-494, the
`/v1/chat/completions` handler: resolve the model and provider, serve the
cache when it holds the key and the request is not streaming, fail with a
503 configuration error when the selected provider has no key, reject
streaming on Gemini with a 501, and otherwise dispatch. The upstream
executor outcome is abstracted as a successful normalized payload
`(upId, upChoices, upUsage)`; on that success the handler builds the
client-facing response (echoing the requested model name and the current
epoch second) and inserts it into the cache with a CACHE_TTL timer. -/
def chatCompletionsStep (cfg : GatewayConfig) (cache : List CacheEntry) (now : Nat)
    (req : ChatRequest) (upId upChoices upUsage : String) : ChatStepResult :=
  let cacheKey := chatCacheKey cfg req
  let resp : ChatResponse := completedResponse req now upId upChoices upUsage
  let proceed : ChatStepResult :=
    if chatProvider cfg req == "gemini" then
      if !cfg.geminiKey then
        ⟨.configError 503 "configuration_error" "gemini_not_configured", cache, false⟩
      else if req.stream then
        ⟨.notImplemented 501 "not_implemented" "streaming_not_supported", cache, false⟩
      else
        ⟨.completed resp, cacheInsert cache cacheKey resp (now + cfg.cacheTTL), true⟩
    else
      if !cfg.openrouterKey then
        ⟨.configError 503 "configuration_error" "openrouter_not_configured", cache, false⟩
      else if req.stream then
        ⟨.streamRelay, cache, true⟩
      else
        ⟨.completed resp, cacheInsert cache cacheKey resp (now + cfg.cacheTTL), true⟩
  match cacheLookup cache now cacheKey, req.stream with
  | some cached, false => ⟨.cacheHit cached, cache, false⟩
  | _, _ => proceed

/-- The decision taken by the embeddings handler before any upstream I/O. -/
inductive DispatchDecision where
  | configError (status : Nat) (etype : String)
  | invokeExecutor (model : String)
deriving DecidableEq

/-- Translated from src/unnamed/part_002 lines 497-524: the `/v1/embeddings`
handler resolves the model (with the `text-embedding-ada-002` entry as the
fallback) and invokes `fetchOpenRouterWithRetry` unconditionally; it
performs no provider-key check and no cache lookup. -/
def embeddingsDispatch (cfg : GatewayConfig) (requestedModel : String) : DispatchDecision :=
  .invokeExecutor ((resolveEmbModel cfg.modelMapping requestedModel).getD "undefined")

/-- What the upstream does on a streaming request: either the
`axios.post(..., responseType stream)` promise rejects (connection or
non-2xx failure before any relay), or a stream is established that delivers
the given chunks and then either ends normally or errors mid-stream. -/
inductive StreamUpstream where
  | connectError (err : String)
  | established (chunks : List String) (midStreamError : Bool)
deriving DecidableEq

/-- Everything the client observes from the streaming branch: the events
written to the response, and whether the response was ended. -/
structure RelayOutput where
  events : List String
  ended : Bool
deriving DecidableEq

/-- The synthetic error event written by the catch branch at line 457:
`data: $\x7bJSON.stringify(\x7b error: \x7b message: ... \x7d \x7d)\x7d` and two newlines. -/
def streamErrorEvent : String :=
  "data: \x7b\"error\":\x7b\"message\":\"Stream error occurred\"\x7d\x7d\n\n"

/-- The terminal sentinel written at line 458. -/
def doneSentinel : String := "data: [DONE]\n\n"

/-- Translated from src/unnamed/part_002 lines 436-460, the streaming branch
of the chat handler. When `await axios.post` rejects, the catch branch
writes exactly one synthetic error event, one terminal sentinel, and calls
`res.end()`. When the upstream stream is established the code runs
`openRouterResponse.data.pipe(res)` and registers no error listener: under
Node stream semantics `pipe` forwards each data chunk in arrival order,
calls `res.end()` when the source ends normally, and on a source error
neither injects any event nor ends the destination. -/
def relayStream (up : StreamUpstream) : RelayOutput :=
  match up with
  | .connectError _ => ⟨[streamErrorEvent, doneSentinel], true⟩
  | .established chunks midStreamError => ⟨chunks, !midStreamError⟩

/-- Modelled from the spec: the per-caller token bucket of the rate limiter
(spec sections 3, 4.5). The implementation lives in `openai-gateway.js`
(lines 88-130 per the repository reports), which is absent from src/; only
its documentation is present. Tokens are exact rationals standing in for
the floating-point counts of the description. -/
structure RateLimitBucket where
  tokens : ℚ
  capacity : ℚ
  refillRatePerSecond : ℚ
  lastRefillAt : ℚ
deriving DecidableEq

/-- Modelled from the spec: on each request the bucket refills by
`elapsedSeconds * refillRatePerSecond` capped at `capacity`; if at least one
token is available one token is consumed and the request is admitted,
otherwise it is rejected and the bucket keeps the refilled amount. -/
def consumeToken (b : RateLimitBucket) (now : ℚ) : Bool × RateLimitBucket :=
  let refilled := min b.capacity (b.tokens + (now - b.lastRefillAt) * b.refillRatePerSecond)
  if 1 ≤ refilled then
    (true, ⟨refilled - 1, b.capacity, b.refillRatePerSecond, now⟩)
  else
    (false, ⟨refilled, b.capacity, b.refillRatePerSecond, now⟩)

/-- The bucket after `n` requests all arriving at the same instant. -/
def bucketAfter (b : RateLimitBucket) (now : ℚ) : Nat → RateLimitBucket
  | 0 => b
  | n + 1 => (consumeToken (bucketAfter b now n) now).2

/-- Whether the `n`-th (0-indexed) of a burst of simultaneous requests is
admitted. -/
def requestAdmitted (b : RateLimitBucket) (now : ℚ) (n : Nat) : Bool :=
  (consumeToken (bucketAfter b now n) now).1

/-- Modelled from the spec: what a rate-limited request observes; on
rejection the model resolver never runs. -/
inductive RateLimitedOutcome where
  | rejected (etype : String)
  | admitted (resolvedModel : Option String)
deriving DecidableEq

/-- Modelled from the spec: the gateway consults the caller bucket before
the model resolver; an empty bucket rejects with `rate_limit_exceeded` and
the resolver is never reached. -/
def rateLimitedResolve (b : RateLimitBucket) (now : ℚ)
    (mapping : List (String × String)) (name : String) :
    RateLimitedOutcome × RateLimitBucket :=
  let (ok, b2) := consumeToken b now
  if ok then (.admitted (resolveChatModel mapping name), b2)
  else (.rejected "rate_limit_exceeded", b2)

/-- A configuration with both provider keys set and the shipped tables. -/
def cfgFull : GatewayConfig := ⟨true, true, MODEL_MAPPING, MODEL_PROVIDER, 3600000⟩

/-- A configuration with no OpenRouter key but a Gemini key, which passes the
startup validation at src/unnamed/part_002 lines 14-21. -/
def cfgNoOpenRouter : GatewayConfig := ⟨false, true, MODEL_MAPPING, MODEL_PROVIDER, 3600000⟩

/-- A non-streaming chat request for the client model gpt-4. -/
def reqGpt4 : ChatRequest := ⟨"gpt-4", [⟨"user", "hi"⟩], false, [("temperature", "0.7")]⟩

/-- The same request content under the client model name gpt-3.5-turbo, which
resolves to the same target model as gpt-4. -/
def reqGpt35 : ChatRequest := ⟨"gpt-3.5-turbo", [⟨"user", "hi"⟩], false, [("temperature", "0.7")]⟩

/-- The bucket of the documented default limit: capacity 100, full refill
over 60 seconds, freshly filled at time 0. -/
def defaultBucket : RateLimitBucket := ⟨100, 100, 100/60, 0⟩

/-! Helper lemmas. -/

/-- Looking up the key just inserted sees the inserted value exactly until
its expiry stamp; older entries under that key are shadowed away. -/
theorem cacheLookup_insert_same (c : List CacheEntry) (k : String) (v : ChatResponse)
    (exp t : Nat) :
    cacheLookup (cacheInsert c k v exp) t k = if t < exp then some v else none := by
  unfold cacheLookup cacheInsert
  by_cases h : t < exp
  · rw [List.find?_cons_of_pos]
    · simp [h]
    · simp [h]
  · rw [List.find?_cons_of_neg]
    · rw [if_neg h]
      have hnone : List.find? (fun e => e.key == k && decide (t < e.expiresAt))
          (c.filter (fun e => e.key != k)) = none := by
        rw [List.find?_eq_none]
        intro e he
        have hne : (e.key != k) = true := (List.mem_filter.mp he).2
        simp only [bne_iff_ne, ne_eq] at hne
        simp [hne]
      rw [hnone]
      rfl
    · simp [h]


/-- The call trace of the executor depends only on the success or failure of
each upstream attempt, never on which error was observed: the code catches
every error alike and never inspects it before deciding to retry or fall
back. -/
theorem executor_trace_blind (maxR : Nat) (fb : List (String × String))
    (o1 o2 : Nat → Outcome) (h : ∀ i, (o1 i).isFail = (o2 i).isFail) :
    ∀ fuel idx model retries L,
      (fetchOpenRouterWithRetry maxR fb o1 fuel idx model retries L).trace
        = (fetchOpenRouterWithRetry maxR fb o2 fuel idx model retries L).trace := by
  intro fuel
  induction fuel with
  | zero => intro idx model retries L; rfl
  | succ n ih =>
    intro idx model retries L
    have hi := h idx
    rcases h1 : o1 idx with r1 | e1 <;> rcases h2 : o2 idx with r2 | e2 <;>
      rw [h1, h2] at hi <;> simp only [Outcome.isFail] at hi
    · simp only [fetchOpenRouterWithRetry, h1, h2]
    · exact absurd hi (by simp)
    · exact absurd hi (by simp)
    · simp only [fetchOpenRouterWithRetry, h1, h2]
      by_cases hex : maxR - 1 ≤ retries
      · rcases hfb : jsTruthy (jsGet fb model) with _ | t
        · simp [hex, hfb]
        · by_cases hc : t ∈ L
          · simp [hex, hfb, hc]
          · simp [hex, hfb, hc, ih]
      · simp [hex, ih]

/-- Every upstream call issued by the executor carries a retries counter
strictly below MAX_RETRIES: the retry branch is taken only while
`retries < MAX_RETRIES - 1` and every fallback restarts the counter at 0. -/
theorem executor_retry_counter_lt (maxR : Nat) (fb : List (String × String))
    (oracle : Nat → Outcome) (h1 : 1 ≤ maxR) :
    ∀ fuel idx model retries L, retries < maxR →
      ∀ p ∈ (fetchOpenRouterWithRetry maxR fb oracle fuel idx model retries L).trace,
        p.2 < maxR := by
  intro fuel
  induction fuel with
  | zero =>
    intro idx model retries L _ p hp
    simp [fetchOpenRouterWithRetry] at hp
  | succ n ih =>
    intro idx model retries L hret p hp
    rcases hor : oracle idx with r | e
    · simp only [fetchOpenRouterWithRetry, hor] at hp
      simp at hp
      rw [hp]
      exact hret
    · simp only [fetchOpenRouterWithRetry, hor] at hp
      by_cases hex : maxR - 1 ≤ retries
      · rcases hfb : jsTruthy (jsGet fb model) with _ | t
        · simp [hex, hfb] at hp
          rw [hp]
          exact hret
        · by_cases hc : t ∈ L
          · simp [hex, hfb, hc] at hp
            rw [hp]
            exact hret
          · simp [hex, hfb, hc] at hp
            rcases hp with hp | hp
            · rw [hp]
              exact hret
            · exact ih (idx + 1) t 0 (L ++ [model]) h1 p hp
      · simp [hex] at hp
        rcases hp with hp | hp
        · rw [hp]
          exact hret
        · exact ih (idx + 1) model (retries + 1) L (by omega) p hp

/-- The cycle-safety invariant of the tried-models list: as long as no model
of the fallback mapping maps to itself, the number of upstream calls issued
for any one model is bounded by its remaining retry budget when it is the
current model, by zero when it already sits in the tried list, and by a full
budget of MAX_RETRIES otherwise. -/
theorem executor_count_bound (maxR : Nat) (fb : List (String × String))
    (oracle : Nat → Outcome) (m : String)
    (hns : ∀ x, jsTruthy (jsGet fb x) ≠ some x) :
    ∀ fuel idx model retries L, retries < maxR →
      ((fetchOpenRouterWithRetry maxR fb oracle fuel idx model retries L).trace.map
          Prod.fst).count m
        ≤ if m = model then maxR - retries else if m ∈ L then 0 else maxR := by
  intro fuel
  induction fuel with
  | zero =>
    intro idx model retries L _
    simp [fetchOpenRouterWithRetry]
  | succ n ih =>
    intro idx model retries L hret
    have hsingle : ∀ model2 : String, ∀ r2 : Nat,
        (([(model2, r2)] : List (String × Nat)).map Prod.fst).count m
          = if m = model2 then 1 else 0 := by
      intro model2 r2
      by_cases hmm : m = model2
      · subst hmm
        simp
      · simp [List.count_cons, hmm, Ne.symm hmm]
    rcases hor : oracle idx with r | e
    · simp only [fetchOpenRouterWithRetry, hor]
      rw [hsingle]
      split
      · omega
      · split <;> omega
    · by_cases hex : maxR - 1 ≤ retries
      · rcases hfb : jsTruthy (jsGet fb model) with _ | t
        · simp only [fetchOpenRouterWithRetry, hor, hex, hfb, if_true]
          rw [hsingle]
          split
          · omega
          · split <;> omega
        · have htm : t ≠ model := by
            intro hcontr
            exact hns model (by rw [hfb, hcontr])
          by_cases hc : t ∈ L
          · have hct : L.contains t = true := by simpa using hc
            simp only [fetchOpenRouterWithRetry, hor, hex, hfb, if_true, if_pos hct]
            rw [hsingle]
            split
            · omega
            · split <;> omega
          · have hcf : ¬ (L.contains t = true) := by simpa using hc
            simp only [fetchOpenRouterWithRetry, hor, hex, hfb, if_true, if_neg hcf]
            have ihr := ih (idx + 1) t 0 (L ++ [model]) (by omega)
            simp only [List.map_cons, List.count_cons]
            by_cases hm : m = model
            · subst hm
              have hmem : m ∈ L ++ [m] := by simp
              rw [if_neg (fun h => htm h.symm)] at ihr
              rw [if_pos hmem] at ihr
              have hb : (m == m) = true := by simp
              simp only [hb, if_true, if_pos rfl]
              omega
            · have hne1 : (model == m) = false := by simp [Ne.symm hm]
              have hne2 : (m == model) = false := by simp [hm]
              simp only [hne1, hne2, Bool.false_eq_true, if_false, Nat.add_zero]
              rw [if_neg hm]
              by_cases hmt : m = t
              · subst hmt
                rw [if_pos rfl] at ihr
                rw [if_neg hc]
                omega
              · rw [if_neg hmt] at ihr
                by_cases hml : m ∈ L
                · have hmem : m ∈ L ++ [model] := by simp [hml]
                  rw [if_pos hmem] at ihr
                  rw [if_pos hml]
                  omega
                · have hmem : m ∉ L ++ [model] := by simp [hml, hm]
                  rw [if_neg hmem] at ihr
                  rw [if_neg hml]
                  omega
      · simp only [fetchOpenRouterWithRetry, hor, if_neg hex]
        have ihr := ih (idx + 1) model (retries + 1) L (by omega)
        simp only [List.map_cons, List.count_cons]
        by_cases hm : m = model
        · subst hm
          rw [if_pos rfl] at ihr
          rw [if_pos rfl]
          have hb : (m == m) = true := by simp
          simp only [hb, if_true]
          omega
        · have hne1 : (model == m) = false := by simp [Ne.symm hm]
          have hne2 : (m == model) = false := by simp [hm]
          simp only [hne1, hne2, Bool.false_eq_true, if_false, Nat.add_zero]
          rw [if_neg hm] at ihr
          rw [if_neg hm]
          exact ihr

/-- When the current model has no fallback entry and every upstream attempt
fails, the retry recursion makes exactly the remaining budget of attempts,
with counters increasing by one, and then raises the last error. -/
theorem executor_all_fail_exact (maxR : Nat) (fb : List (String × String)) (e : String)
    (model : String) (hfb : jsTruthy (jsGet fb model) = none) :
    ∀ fuel r idx L, r < maxR → maxR - r ≤ fuel →
      fetchOpenRouterWithRetry maxR fb (fun _ => .fail e) fuel idx model r L
        = ⟨(List.range (maxR - r)).map (fun i => (model, r + i)), .error e⟩ := by
  intro fuel
  induction fuel with
  | zero =>
    intro r idx L hr hf
    omega
  | succ n ih =>
    intro r idx L hr hf
    by_cases hex : maxR - 1 ≤ r
    · have h1 : maxR - r = 1 := by omega
      simp only [fetchOpenRouterWithRetry, hex, if_true, hfb, h1]
      simp [List.range_succ]
    · have ihr := ih (r + 1) (idx + 1) L (by omega) (by omega)
      simp only [fetchOpenRouterWithRetry, if_neg hex, ihr]
      have hsplit : maxR - r = (maxR - (r + 1)) + 1 := by omega
      rw [hsplit, List.range_succ_eq_map]
      simp only [List.map_cons, List.map_map, ExecResult.mk.injEq, and_true, Nat.add_zero,
        List.cons.injEq, true_and]
      apply List.map_congr_left
      intro a _
      simp only [Function.comp_apply, Prod.mk.injEq, true_and]
      omega

/-- A fresh capacity-100 bucket hit by a burst of simultaneous requests holds
exactly 100 - n tokens after the first n of them. -/
theorem bucketAfter_spec :
    ∀ n : Nat, n ≤ 100 →
      bucketAfter defaultBucket 0 n = ⟨(100 : ℚ) - n, 100, 100/60, 0⟩ := by
  intro n
  induction n with
  | zero =>
    intro _
    simp [bucketAfter, defaultBucket]
  | succ k ih =>
    intro hk
    rw [bucketAfter, ih (by omega)]
    have hcast : ((k : ℚ)) ≤ 99 := by
      exact_mod_cast Nat.le_of_lt_succ (by omega : k < 100)
    have hk0 : (0 : ℚ) ≤ (k : ℚ) := by positivity
    have hmin : min (100 : ℚ) (((100 : ℚ) - k) + ((0 : ℚ) - 0) * (100/60)) = 100 - k := by
      rw [min_eq_right]
      · ring_nf
      · linarith
    have h1le : (1 : ℚ) ≤ min (100 : ℚ) (((100 : ℚ) - k) + ((0 : ℚ) - 0) * (100/60)) := by
      rw [hmin]
      linarith
    dsimp only [consumeToken]
    rw [if_pos h1le]
    simp only [RateLimitBucket.mk.injEq, and_true]
    rw [hmin]
    push_cast
    ring

/-- Cancellation of a shared prefix and suffix of string concatenations. -/
theorem string_append_cancel (a c x y : String)
    (h : (a ++ x) ++ c = (a ++ y) ++ c) : x = y := by
  have hd : ((a ++ x) ++ c).data = ((a ++ y) ++ c).data := by rw [h]
  simp only [String.data_append] at hd
  have h1 : x.data = y.data :=
    List.append_cancel_left (List.append_cancel_right hd)
  exact String.ext h1


/-! Claim theorems. -/

/-- C1: evaluation of the code at the failing input. With the FallbackChain
containing the one-element cycle modelA to modelA, MAX_RETRIES = 3 and every
upstream attempt failing, the executor issues six upstream calls to modelA:
two full retry cycles. The guard at line 308 compares the fallback target
against `modelFallbacks` before the current model has been added to that
list, so a self-loop passes the check and the model whose budget was just
exhausted is attempted again, contrary to the claim. -/
theorem selfloop_fallback_reattempts_exhausted_model :
    fetchOpenRouterWithRetry 3 [("modelA", "modelA")]
        (fun _ => .fail "Request failed with status code 500") 10 0 "modelA" 0 []
      = ⟨[("modelA", 0), ("modelA", 1), ("modelA", 2),
          ("modelA", 0), ("modelA", 1), ("modelA", 2)],
         .error "Request failed with status code 500"⟩ := by
  decide

/-- C2 counterexample: with no OpenRouter key configured (a configuration
that passes startup validation because the Gemini key is present), the
embeddings handler still resolves the model and invokes the executor; it
does not fail with a configuration error, so the claim is false for the
embeddings operation. -/
theorem embeddings_no_key_check_cex :
    cfgNoOpenRouter.openrouterKey = false
    ∧ embeddingsDispatch cfgNoOpenRouter "text-embedding-ada-002"
        = .invokeExecutor "mistralai/mistral-embed:free"
    ∧ embeddingsDispatch cfgNoOpenRouter "text-embedding-ada-002"
        ≠ .configError 503 "configuration_error" := by
  decide

/-- C2 (amended): on the chat-completions path, a cache-missing request whose
selected provider has no configured key fails with a 503 configuration_error
before any executor invocation: no upstream call is issued, no retry is
consumed and the cache is untouched. The embeddings path performs no such
check (see the counterexample). -/
theorem chat_unconfigured_provider_fails_fast
    (cfg : GatewayConfig) (cache : List CacheEntry) (now : Nat)
    (req : ChatRequest) (uid uch uus : String)
    (hmiss : cacheLookup cache now (chatCacheKey cfg req) = none) :
    (chatProvider cfg req = "gemini" → cfg.geminiKey = false →
      chatCompletionsStep cfg cache now req uid uch uus
        = ⟨.configError 503 "configuration_error" "gemini_not_configured", cache, false⟩)
    ∧ (chatProvider cfg req ≠ "gemini" → cfg.openrouterKey = false →
      chatCompletionsStep cfg cache now req uid uch uus
        = ⟨.configError 503 "configuration_error" "openrouter_not_configured", cache, false⟩) := by
  constructor
  · intro hprov hkey
    have hb : (chatProvider cfg req == "gemini") = true := by simp [hprov]
    simp [chatCompletionsStep, hmiss, hb, hkey]
  · intro hprov hkey
    have hb : (chatProvider cfg req == "gemini") = false := by
      simp [hprov]
    simp [chatCompletionsStep, hmiss, hb, hkey]

/-- C2 witness: concrete instance of the amended theorem on the OpenRouter
branch with an empty cache. -/
theorem chat_unconfigured_provider_fails_fast_witness :
    cacheLookup [] 0 (chatCacheKey cfgNoOpenRouter reqGpt4) = none
    ∧ chatCompletionsStep cfgNoOpenRouter [] 0 reqGpt4 "id1" "ch1" "us1"
        = ⟨.configError 503 "configuration_error" "openrouter_not_configured", [], false⟩ := by
  have h := chat_unconfigured_provider_fails_fast cfgNoOpenRouter [] 0 reqGpt4 "id1" "ch1" "us1" rfl
  exact ⟨rfl, h.2 (by decide) rfl⟩

/-- C3 counterexample: an upstream failure whose classification is not
network or provider flavoured (an HTTP 400 validation failure) does not
propagate immediately: the executor consumes the full retry budget of three
attempts on it before raising it, so the claim is false on the code. -/
theorem executor_retries_validation_error_cex :
    fetchOpenRouterWithRetry 3 [] (fun _ => .fail "Request failed with status code 400")
        10 0 "m" 0 []
      = ⟨[("m", 0), ("m", 1), ("m", 2)], .error "Request failed with status code 400"⟩ := by
  decide

/-- C3 (amended): the executor is classification-blind. Whether it retries
or falls back depends only on whether each upstream attempt failed, never on
which error was observed: two oracles with the same success and failure
pattern produce identical call traces, whatever their error kinds. -/
theorem executor_classification_blind (maxR : Nat) (fb : List (String × String))
    (o1 o2 : Nat → Outcome) (h : ∀ i, (o1 i).isFail = (o2 i).isFail)
    (fuel idx : Nat) (model : String) (retries : Nat) (L : List String) :
    (fetchOpenRouterWithRetry maxR fb o1 fuel idx model retries L).trace
      = (fetchOpenRouterWithRetry maxR fb o2 fuel idx model retries L).trace :=
  executor_trace_blind maxR fb o1 o2 h fuel idx model retries L

/-- C3 witness: a request failing with validation-style errors walks exactly
the same call trace as one failing with timeout-style errors. -/
theorem executor_classification_blind_witness :
    (fetchOpenRouterWithRetry 3 FALLBACK_MAPPING
        (fun _ => .fail "Request failed with status code 400")
        30 0 "google/gemma-2-9b-it:free" 0 []).trace
      = (fetchOpenRouterWithRetry 3 FALLBACK_MAPPING
        (fun _ => .fail "timeout of 10000ms exceeded")
        30 0 "google/gemma-2-9b-it:free" 0 []).trace :=
  executor_classification_blind 3 FALLBACK_MAPPING _ _ (fun _ => rfl)
    30 0 "google/gemma-2-9b-it:free" 0 []

/-- C4: evaluation of the code at the failing input. When the upstream
stream is established, delivers one chunk, and then errors mid-stream, the
relay (a bare `pipe` with no error listener) forwards only that chunk: the
client receives zero synthetic error events, zero terminal sentinels, and
the connection is not ended, contrary to the claim of exactly one of each
followed by a close. -/
theorem midstream_failure_no_terminal_eval :
    relayStream (.established ["data: chunk1\n\n"] true) = ⟨["data: chunk1\n\n"], false⟩
    ∧ (relayStream (.established ["data: chunk1\n\n"] true)).events.count streamErrorEvent = 0
    ∧ (relayStream (.established ["data: chunk1\n\n"] true)).events.count doneSentinel = 0 := by
  decide

/-- C5: cache round trip. For a non-streaming request served by OpenRouter
with its key configured and no cached entry, the first dispatch invokes the
provider and caches the response it returns; an identical request strictly
within CACHE_TTL of the insertion is answered with exactly that stored
response without invoking the provider again, and once CACHE_TTL has elapsed
the same request misses the cache and invokes the provider again. -/
theorem cache_round_trip
    (cfg : GatewayConfig) (cache0 : List CacheEntry) (t0 t1 : Nat)
    (req : ChatRequest) (uid1 uch1 uus1 uid2 uch2 uus2 : String)
    (hstream : req.stream = false)
    (hprov : chatProvider cfg req ≠ "gemini")
    (hkey : cfg.openrouterKey = true)
    (hmiss : cacheLookup cache0 t0 (chatCacheKey cfg req) = none) :
    chatCompletionsStep cfg cache0 t0 req uid1 uch1 uus1
      = ⟨.completed (completedResponse req t0 uid1 uch1 uus1),
         cacheInsert cache0 (chatCacheKey cfg req) (completedResponse req t0 uid1 uch1 uus1)
           (t0 + cfg.cacheTTL), true⟩
    ∧ (t1 < t0 + cfg.cacheTTL →
        chatCompletionsStep cfg
            (cacheInsert cache0 (chatCacheKey cfg req) (completedResponse req t0 uid1 uch1 uus1)
              (t0 + cfg.cacheTTL)) t1 req uid2 uch2 uus2
          = ⟨.cacheHit (completedResponse req t0 uid1 uch1 uus1),
             cacheInsert cache0 (chatCacheKey cfg req) (completedResponse req t0 uid1 uch1 uus1)
               (t0 + cfg.cacheTTL), false⟩)
    ∧ (t0 + cfg.cacheTTL ≤ t1 →
        (chatCompletionsStep cfg
            (cacheInsert cache0 (chatCacheKey cfg req) (completedResponse req t0 uid1 uch1 uus1)
              (t0 + cfg.cacheTTL)) t1 req uid2 uch2 uus2).invoked = true) := by
  have hb : (chatProvider cfg req == "gemini") = false := by simp [hprov]
  refine ⟨?_, ?_, ?_⟩
  · simp [chatCompletionsStep, hmiss, hb, hkey, hstream]
  · intro ht
    have hl := cacheLookup_insert_same cache0 (chatCacheKey cfg req)
      (completedResponse req t0 uid1 uch1 uus1) (t0 + cfg.cacheTTL) t1
    rw [if_pos ht] at hl
    simp [chatCompletionsStep, hl, hstream]
  · intro ht
    have hl := cacheLookup_insert_same cache0 (chatCacheKey cfg req)
      (completedResponse req t0 uid1 uch1 uus1) (t0 + cfg.cacheTTL) t1
    rw [if_neg (by omega)] at hl
    simp [chatCompletionsStep, hl, hb, hkey, hstream]

/-- C5 witness: the round trip at a concrete configuration, request and
times 0 and 5 with CACHE_TTL 3600000. -/
theorem cache_round_trip_witness :
    cacheLookup [] 0 (chatCacheKey cfgFull reqGpt4) = none
    ∧ chatCompletionsStep cfgFull [] 0 reqGpt4 "id1" "ch1" "us1"
        = ⟨.completed (completedResponse reqGpt4 0 "id1" "ch1" "us1"),
           cacheInsert [] (chatCacheKey cfgFull reqGpt4)
             (completedResponse reqGpt4 0 "id1" "ch1" "us1") (0 + cfgFull.cacheTTL), true⟩
    ∧ chatCompletionsStep cfgFull
          (cacheInsert [] (chatCacheKey cfgFull reqGpt4)
            (completedResponse reqGpt4 0 "id1" "ch1" "us1") (0 + cfgFull.cacheTTL))
          5 reqGpt4 "id2" "ch2" "us2"
        = ⟨.cacheHit (completedResponse reqGpt4 0 "id1" "ch1" "us1"),
           cacheInsert [] (chatCacheKey cfgFull reqGpt4)
             (completedResponse reqGpt4 0 "id1" "ch1" "us1") (0 + cfgFull.cacheTTL), false⟩ := by
  have h := cache_round_trip cfgFull [] 0 5 reqGpt4 "id1" "ch1" "us1" "id2" "ch2" "us2"
    rfl (by decide) rfl rfl
  exact ⟨rfl, h.1, h.2.1 (by decide)⟩

/-- C6: token-bucket rate limiting as documented. On each request the bucket
refills by elapsed time times the refill rate, capped at capacity, and one
token is consumed when at least one is available; a fresh capacity-100
bucket admits each of the first 100 simultaneous requests, rejects the
101st, and the rejection carries rate_limit_exceeded without the model
resolver ever running. -/
theorem rate_limiter_token_bucket (n : Nat) (h : n < 100) :
    requestAdmitted defaultBucket 0 n = true
    ∧ requestAdmitted defaultBucket 0 100 = false
    ∧ (rateLimitedResolve (bucketAfter defaultBucket 0 100) 0 MODEL_MAPPING "gpt-4").1
        = .rejected "rate_limit_exceeded" := by
  have hb0 : bucketAfter defaultBucket 0 100 = ⟨0, 100, 100/60, 0⟩ := by
    rw [bucketAfter_spec 100 le_rfl]
    simp only [RateLimitBucket.mk.injEq, and_true]
    norm_num
  have hct : consumeToken ⟨0, 100, 100/60, 0⟩ 0 = (false, ⟨0, 100, 100/60, 0⟩) := by
    dsimp only [consumeToken]
    rw [if_neg]
    · simp only [Prod.mk.injEq, RateLimitBucket.mk.injEq, and_true, true_and]
      norm_num
    · norm_num
  refine ⟨?_, ?_, ?_⟩
  · unfold requestAdmitted
    rw [bucketAfter_spec n (Nat.le_of_lt h)]
    have hcast : ((n : ℚ)) ≤ 99 := by exact_mod_cast Nat.le_of_lt_succ h
    have hn0 : (0 : ℚ) ≤ (n : ℚ) := by positivity
    have hmin : min (100 : ℚ) (((100 : ℚ) - n) + ((0 : ℚ) - 0) * (100/60)) = 100 - n := by
      rw [min_eq_right]
      · ring_nf
      · linarith
    have h1le : (1 : ℚ) ≤ min (100 : ℚ) (((100 : ℚ) - n) + ((0 : ℚ) - 0) * (100/60)) := by
      rw [hmin]
      linarith
    dsimp only [consumeToken]
    rw [if_pos h1le]
  · unfold requestAdmitted
    rw [hb0, hct]
  · unfold rateLimitedResolve
    rw [hb0, hct]
    rfl

/-- C6 witness: the theorem applied to the 6th request of the burst. -/
theorem rate_limiter_token_bucket_witness :
    5 < 100
    ∧ (requestAdmitted defaultBucket 0 5 = true
       ∧ requestAdmitted defaultBucket 0 100 = false
       ∧ (rateLimitedResolve (bucketAfter defaultBucket 0 100) 0 MODEL_MAPPING "gpt-4").1
           = .rejected "rate_limit_exceeded") :=
  ⟨by decide, rate_limiter_token_bucket 5 (by decide)⟩

/-- C7 counterexample: the unknown client model name totally-unknown-model
has no entry in MODEL_MAPPING, whose default entry targets deepseek; the
embeddings resolver nevertheless resolves it to the text-embedding-ada-002
target (mistral-embed), not the default target, so the claim that the
default policy applies to the embeddings path alike is false. -/
theorem embeddings_unknown_model_not_default_cex :
    jsGet MODEL_MAPPING "totally-unknown-model" = none
    ∧ jsGet MODEL_MAPPING "default" = some "deepseek/deepseek-r1-0528:free"
    ∧ resolveEmbModel MODEL_MAPPING "totally-unknown-model" = some "mistralai/mistral-embed:free"
    ∧ resolveEmbModel MODEL_MAPPING "totally-unknown-model" ≠ some "deepseek/deepseek-r1-0528:free"
    ∧ embeddingsDispatch cfgFull "totally-unknown-model"
        = .invokeExecutor "mistralai/mistral-embed:free" := by
  decide

/-- C7 (amended): resolution never fails, but the two paths use different
fallback entries. For every client model name without an entry in the
shipped MODEL_MAPPING, the chat path resolves to the default entry target
and the embeddings path resolves to the text-embedding-ada-002 entry
target. -/
theorem unknown_model_resolution (name : String)
    (h : jsGet MODEL_MAPPING name = none) :
    resolveChatModel MODEL_MAPPING name = some "deepseek/deepseek-r1-0528:free"
    ∧ resolveEmbModel MODEL_MAPPING name = some "mistralai/mistral-embed:free" := by
  unfold resolveChatModel resolveEmbModel jsOr
  rw [h]
  exact ⟨by decide, by decide⟩

/-- C7 witness: the amended theorem at the concrete name totally-unknown. -/
theorem unknown_model_resolution_witness :
    jsGet MODEL_MAPPING "totally-unknown" = none
    ∧ (resolveChatModel MODEL_MAPPING "totally-unknown" = some "deepseek/deepseek-r1-0528:free"
       ∧ resolveEmbModel MODEL_MAPPING "totally-unknown" = some "mistralai/mistral-embed:free") :=
  ⟨by decide, unknown_model_resolution "totally-unknown" (by decide)⟩

/-- C8: retry budget per target model. Every upstream call issued in a
dispatch carries a retry counter strictly below MAX_RETRIES; when the
fallback mapping has no self-loop no single model is called more than
MAX_RETRIES times in the whole logical request; and for a model without a
fallback entry whose attempts all fail, the retry recursion performs exactly
MAX_RETRIES attempts, with counters 0 to MAX_RETRIES - 1, then raises the
last error. -/
theorem retry_budget_per_model (maxR : Nat) (fb : List (String × String)) (h1 : 1 ≤ maxR) :
    (∀ oracle fuel idx model L,
      ∀ p ∈ (fetchOpenRouterWithRetry maxR fb oracle fuel idx model 0 L).trace, p.2 < maxR)
    ∧ (∀ oracle fuel idx model m, (∀ x, jsTruthy (jsGet fb x) ≠ some x) →
        ((fetchOpenRouterWithRetry maxR fb oracle fuel idx model 0 []).trace.map
            Prod.fst).count m ≤ maxR)
    ∧ (∀ e fuel idx model, jsTruthy (jsGet fb model) = none → maxR ≤ fuel →
        fetchOpenRouterWithRetry maxR fb (fun _ => .fail e) fuel idx model 0 []
          = ⟨(List.range maxR).map (fun i => (model, i)), .error e⟩) := by
  refine ⟨?_, ?_, ?_⟩
  · intro oracle fuel idx model L
    exact executor_retry_counter_lt maxR fb oracle h1 fuel idx model 0 L (by omega)
  · intro oracle fuel idx model m hns
    have h := executor_count_bound maxR fb oracle m hns fuel idx model 0 [] (by omega)
    by_cases hm : m = model
    · rw [if_pos hm] at h
      simpa using h
    · rw [if_neg hm] at h
      simpa using h
  · intro e fuel idx model hfb hf
    have h := executor_all_fail_exact maxR fb e model hfb fuel 0 idx [] (by omega) (by omega)
    simpa using h

/-- C8 witness: the exactness part at MAX_RETRIES = 3 for a model with no
fallback entry. -/
theorem retry_budget_per_model_witness :
    1 ≤ 3
    ∧ fetchOpenRouterWithRetry 3 [] (fun _ => Outcome.fail "boom") 5 0 "m" 0 []
        = ⟨(List.range 3).map (fun i => ("m", i)), .error "boom"⟩ :=
  ⟨by decide, (retry_budget_per_model 3 [] (by decide)).2.2 "boom" 5 0 "m" rfl (by decide)⟩

/-- C9 counterexample: two options objects with identical fields in a
different order produce different cache keys, so the claim that field order
is normalized before hashing is false on the code. -/
theorem options_order_changes_key_cex :
    generateCacheKey "deepseek/deepseek-r1-0528:free" [⟨"user", "hi"⟩]
        [("temperature", "0.7"), ("top_p", "1")]
      ≠ generateCacheKey "deepseek/deepseek-r1-0528:free" [⟨"user", "hi"⟩]
        [("top_p", "1"), ("temperature", "0.7")] := by
  decide

/-- C9 (amended): the fingerprint is an order-preserving serialization with
no normalization of the options field order: whenever two options lists
serialize differently, and in particular when the same fields are listed in
a different order, the cache keys differ, so the reordered request is a
false cache miss rather than a hit. -/
theorem cache_key_options_injective (model : String) (msgs : List Message)
    (o1 o2 : List (String × String))
    (h : serializeOptions o1 ≠ serializeOptions o2) :
    generateCacheKey model msgs o1 ≠ generateCacheKey model msgs o2 := by
  intro hk
  apply h
  unfold generateCacheKey at hk
  exact string_append_cancel _ _ _ _ hk

/-- C9 witness: the amended theorem at reordered concrete options. -/
theorem cache_key_options_injective_witness :
    serializeOptions [("temperature", "0.7"), ("top_p", "1")]
        ≠ serializeOptions [("top_p", "1"), ("temperature", "0.7")]
    ∧ generateCacheKey "m" [] [("temperature", "0.7"), ("top_p", "1")]
        ≠ generateCacheKey "m" [] [("top_p", "1"), ("temperature", "0.7")] :=
  ⟨by decide, cache_key_options_injective "m" []
    [("temperature", "0.7"), ("top_p", "1")] [("top_p", "1"), ("temperature", "0.7")]
    (by decide)⟩

/-- C10: cached responses embed the first requester client-facing alias.
When a request for client name A is dispatched, completed and cached, a
later non-streaming request for a different client name B that resolves to
the same target model with identical messages and options, arriving within
CACHE_TTL, is served from the cache without a provider invocation, and the
served response still carries the model field A of the first requester, not
B. -/
theorem cached_alias_first_requester
    (cfg : GatewayConfig) (cache0 : List CacheEntry) (t0 t1 : Nat)
    (reqA reqB : ChatRequest) (uid uch uus uid2 uch2 uus2 : String)
    (hsA : reqA.stream = false) (hsB : reqB.stream = false)
    (hne : reqA.model ≠ reqB.model)
    (hres : chatResolvedModel cfg reqA = chatResolvedModel cfg reqB)
    (hmsg : reqB.messages = reqA.messages) (hopt : reqB.options = reqA.options)
    (hprov : chatProvider cfg reqA ≠ "gemini")
    (hkey : cfg.openrouterKey = true)
    (hmiss : cacheLookup cache0 t0 (chatCacheKey cfg reqA) = none)
    (ht : t1 < t0 + cfg.cacheTTL) :
    chatCompletionsStep cfg (chatCompletionsStep cfg cache0 t0 reqA uid uch uus).cache
        t1 reqB uid2 uch2 uus2
      = ⟨.cacheHit (completedResponse reqA t0 uid uch uus),
         (chatCompletionsStep cfg cache0 t0 reqA uid uch uus).cache, false⟩
    ∧ (completedResponse reqA t0 uid uch uus).model = reqA.model
    ∧ (completedResponse reqA t0 uid uch uus).model ≠ reqB.model := by
  have hb : (chatProvider cfg reqA == "gemini") = false := by simp [hprov]
  have hkeyeq : chatCacheKey cfg reqB = chatCacheKey cfg reqA := by
    unfold chatCacheKey
    rw [← hres, hmsg, hopt]
  have hstep1 : chatCompletionsStep cfg cache0 t0 reqA uid uch uus
      = ⟨.completed (completedResponse reqA t0 uid uch uus),
         cacheInsert cache0 (chatCacheKey cfg reqA) (completedResponse reqA t0 uid uch uus)
           (t0 + cfg.cacheTTL), true⟩ := by
    simp [chatCompletionsStep, hmiss, hb, hkey, hsA]
  rw [hstep1]
  have hl := cacheLookup_insert_same cache0 (chatCacheKey cfg reqA)
    (completedResponse reqA t0 uid uch uus) (t0 + cfg.cacheTTL) t1
  rw [if_pos ht] at hl
  refine ⟨?_, rfl, ?_⟩
  · simp [chatCompletionsStep, hkeyeq, hl, hsB]
  · simpa [completedResponse] using hne

/-- C10 witness: gpt-4 and gpt-3.5-turbo both resolve to the deepseek
target; the second request is served the cached response whose model field
still reads gpt-4. -/
theorem cached_alias_first_requester_witness :
    reqGpt4.model ≠ reqGpt35.model
    ∧ (chatCompletionsStep cfgFull
          (chatCompletionsStep cfgFull [] 0 reqGpt4 "id1" "ch1" "us1").cache
          5 reqGpt35 "id2" "ch2" "us2"
        = ⟨.cacheHit (completedResponse reqGpt4 0 "id1" "ch1" "us1"),
           (chatCompletionsStep cfgFull [] 0 reqGpt4 "id1" "ch1" "us1").cache, false⟩
       ∧ (completedResponse reqGpt4 0 "id1" "ch1" "us1").model = reqGpt4.model
       ∧ (completedResponse reqGpt4 0 "id1" "ch1" "us1").model ≠ reqGpt35.model) :=
  ⟨by decide,
   cached_alias_first_requester cfgFull [] 0 5 reqGpt4 reqGpt35
     "id1" "ch1" "us1" "id2" "ch2" "us2" rfl rfl (by decide) (by decide) rfl rfl
     (by decide) rfl rfl (by decide)⟩

end PorTaTek
